import Mathlib

/-!
Verification development for the ScreenCraft SDK repository.

The Go SDK (src/go/errors.go, src/go/screencraft.go, src/go/screenshot.go and
the PDF half of src/go/errors.go) is embedded shallowly below: durations are
rationals measured in seconds, HTTP attempt outcomes are scripted by a
function from the attempt index to an outcome, and the random jitter factor
of rand.Float64 is an explicit rational parameter in the unit interval.
The Node SDK status-code classifier (src/nodejs/src/errors.ts,
createErrorFromResponse) is embedded as a map from status codes to error
kinds.
-/

namespace ScreenCraft

/-! ## Error values (src/go/errors.go) -/

/-- Embedding of the Go struct Error (src/go/errors.go lines 33 to 52).
The Details map carries only string-valued entries in this model, because
parseErrorResponse reads only the string-typed entries field and constraint;
the Err field is elided: in the paths modelled here it is nil for every
error built by parseErrorResponse and a transport error (never a screencraft
Error) inside NewNetworkError, so it never contributes a screencraft Error
to an unwrap chain. -/
structure BaseError where
  statusCode : Int
  code : String
  message : String
  requestID : String
  details : List (String × String)
  deriving DecidableEq, Repr

/-- Embedding of the method Error.IsRetryable (src/go/errors.go lines 73 to
84): true exactly for status codes 429, 503, 502, 504 and 500. -/
def BaseError.IsRetryable (e : BaseError) : Bool :=
  e.statusCode == 429 || e.statusCode == 503 || e.statusCode == 502 ||
    e.statusCode == 504 || e.statusCode == 500

/-- The Go error values produced by the SDK: the bare Error struct and the
wrapper structs that embed it (AuthenticationError, RateLimitError,
ValidationError, TimeoutError, NetworkError, ServerError). Each wrapper
carries its embedded base Error plus its own fields. -/
inductive SCError where
  | base (e : BaseError)
  | authentication (e : BaseError)
  | rateLimit (e : BaseError) (limit remaining : Int) (resetUnix : Int) (retryAfter : ℚ)
  | validation (e : BaseError) (fieldName constraint : String)
  | timeout (e : BaseError) (duration : ℚ)
  | network (e : BaseError)
  | server (e : BaseError)
  deriving DecidableEq, Repr

/-- The tag of an error value, following the taxonomy of the spec: the bare
Error struct carries no wrapper type, so its tag is Unknown. -/
inductive ErrorTag where
  | unknownTag
  | authenticationTag
  | rateLimitTag
  | validationTag
  | timeoutTag
  | networkTag
  | serverTag
  deriving DecidableEq, Repr

def tagOf : SCError → ErrorTag
  | .base _ => .unknownTag
  | .authentication _ => .authenticationTag
  | .rateLimit _ _ _ _ _ => .rateLimitTag
  | .validation _ _ _ => .validationTag
  | .timeout _ _ => .timeoutTag
  | .network _ => .networkTag
  | .server _ => .serverTag

/-- Embedding of the package function IsRetryable (src/go/errors.go lines 247
to 270). The function dispatches with errors.As:
  * errors.As(err, target of type pointer to Error) succeeds only when a
    member of the unwrap chain has concrete type pointer to Error. A wrapper
    struct such as ServerError is a distinct type, and its promoted Unwrap
    method returns the Err field of the embedded Error, which is nil for
    every error parseErrorResponse builds, not the embedded Error itself.
    Hence this first check succeeds exactly on the bare Error struct.
  * The following three checks match the concrete wrapper types
    RateLimitError, NetworkError and TimeoutError.
ServerError, AuthenticationError and ValidationError match none of the four
checks, so the function returns false for them. In particular a ServerError
is NOT retryable under this function, although the status codes it is built
from (500, 502, 503, 504) are declared retryable by BaseError.IsRetryable. -/
def IsRetryable : SCError → Bool
  | .base e => e.IsRetryable
  | .rateLimit _ _ _ _ _ => true
  | .network _ => true
  | .timeout _ _ => true
  | _ => false

/-- Embedding of GetRetryAfter (src/go/errors.go lines 272 to 279): the
RetryAfter duration of a RateLimitError, and 0 for every other error. -/
def GetRetryAfter : SCError → ℚ
  | .rateLimit _ _ _ _ retryAfter => retryAfter
  | _ => 0

/-- The error NewNetworkError builds around a transport failure
(src/go/errors.go lines 183 to 193). -/
def networkTransportError : SCError :=
  .network { statusCode := 0, code := "NETWORK_ERROR",
             message := "network error occurred", requestID := "", details := [] }

/-! ## Response parsing (src/go/screencraft.go) -/

/-- Embedding of APIErrorDetails (src/go/screenshot.go types section). -/
structure APIErrorDetails where
  code : String
  message : String
  details : List (String × String)
  deriving DecidableEq, Repr

/-- Embedding of APIResponse (src/go/screenshot.go types section). -/
structure APIResponse where
  success : Bool
  message : String
  jobId : String
  error : Option APIErrorDetails
  deriving DecidableEq, Repr

/-- The data of one received HTTP response that parseErrorResponse and
parseRateLimitHeaders consume: the status code, the X-Request-ID header, the
integer value of the Retry-After header when present and parseable (none
otherwise), the Atoi-parsed rate limit headers (0 when absent or
unparseable, matching the zero result strconv returns alongside an ignored
error), and the body, either parsed JSON (some) or the raw text of a body
that is not valid JSON (none, with rawBody carrying the text). -/
structure HttpResponseData where
  statusCode : Int
  requestID : String
  retryAfterHeader : Option Int
  rlLimit : Int
  rlRemaining : Int
  rlReset : Int
  body : Option APIResponse
  rawBody : String
  deriving DecidableEq, Repr

/-- Embedding of parseErrorResponse (src/go/screencraft.go lines 305 to 389).
The io.ReadAll failure path is elided (the body text is already given). -/
def parseErrorResponse (d : HttpResponseData) : SCError :=
  match d.body with
  | none =>
      .base { statusCode := d.statusCode, code := "", message := d.rawBody,
              requestID := "", details := [] }
  | some apiResp =>
      let baseErr : BaseError :=
        { statusCode := d.statusCode
          requestID := d.requestID
          code := match apiResp.error with | some det => det.code | none => ""
          message := match apiResp.error with
                     | some det => det.message
                     | none => apiResp.message
          details := match apiResp.error with | some det => det.details | none => [] }
      if d.statusCode = 401 then
        .authentication baseErr
      else if d.statusCode = 429 then
        let retryAfter : ℚ := match d.retryAfterHeader with
                              | some seconds => (seconds : ℚ)
                              | none => 0
        .rateLimit baseErr d.rlLimit d.rlRemaining d.rlReset retryAfter
      else if d.statusCode = 400 then
        .validation baseErr ((baseErr.details.lookup "field").getD "")
          ((baseErr.details.lookup "constraint").getD "")
      else if d.statusCode = 500 ∨ d.statusCode = 502 ∨ d.statusCode = 503 ∨
          d.statusCode = 504 then
        .server baseErr
      else
        .base baseErr

/-! ## Rate limit snapshot (src/go/screencraft.go lines 186 to 191 and 287
to 303) -/

/-- The three Atoi-parsed rate limit headers of one response; 0 stands for an
absent or unparseable header, matching strconv Atoi with its error ignored. -/
structure RateLimitHeaders where
  limit : Int
  remaining : Int
  resetUnix : Int
  deriving DecidableEq, Repr

/-- Embedding of RateLimitInfo (src/go/screenshot.go types section); the
Reset time is kept as the raw unix value. -/
structure RateLimitInfo where
  limit : Int
  remaining : Int
  resetUnix : Int
  deriving DecidableEq, Repr

/-- Embedding of parseRateLimitHeaders (src/go/screencraft.go lines 287 to
303) as a pure update of the lastRateLimit field: the snapshot is overwritten
exactly when at least one parsed header value is positive. -/
def parseRateLimitHeaders (st : Option RateLimitInfo) (h : RateLimitHeaders) :
    Option RateLimitInfo :=
  if 0 < h.limit ∨ 0 < h.remaining ∨ 0 < h.resetUnix then
    some { limit := h.limit, remaining := h.remaining, resetUnix := h.resetUnix }
  else st

/-- Whether a response carries at least one positive rate limit header. -/
def hasPositiveRateLimit (h : RateLimitHeaders) : Bool :=
  decide (0 < h.limit) || decide (0 < h.remaining) || decide (0 < h.resetUnix)

/-- The lastRateLimit field after the client has observed the given sequence
of responses, starting from its initial nil value. -/
def lastRateLimitAfter (history : List RateLimitHeaders) : Option RateLimitInfo :=
  history.foldl parseRateLimitHeaders none

/-- Embedding of GetRateLimitInfo (src/go/screencraft.go lines 186 to 191):
the accessor returns the current snapshot unchanged. -/
def GetRateLimitInfo (st : Option RateLimitInfo) : Option RateLimitInfo := st

/-! ## The retry loop (src/go/screencraft.go lines 193 to 267) -/

/-- What one attempt of the loop body observes: either httpClient.Do fails at
the transport level, or a response arrives with the given data (a status code
below 400 is a success). -/
inductive AttemptOutcome where
  | transportFailure
  | httpResponse (d : HttpResponseData)

/-- The outcome of doRequest: a successful response, a terminal error (the
Option is none only on the unreachable fall-through return after the loop),
or ctx.Err() observed during a wait before a retry. Each constructor records
how many HTTP attempts were performed. -/
inductive DoResult where
  | success (attempts : Nat) (statusCode : Int)
  | failure (attempts : Nat) (lastErr : Option SCError)
  | contextCanceled (attempts : Nat)
  deriving DecidableEq, Repr

def DoResult.attempts : DoResult → Nat
  | .success n _ => n
  | .failure n _ => n
  | .contextCanceled n => n

/-- The body of the retry loop of doRequest (src/go/screencraft.go lines 211
to 264), by recursion on the remaining loop iterations. maxRetries is mr; out
scripts the outcome of each attempt by index; ctxDoneDuringWait says whether
the caller context is done when the wait before the given attempt index runs
(the select of lines 216 to 220). The missing-API-key early return before the
loop is elided: it performs zero attempts. The fuel-0 case is the return
after the loop, which is unreachable from doRequest because the body returns
whenever attempt = mr. -/
def doRequestLoop (mr : Nat) (out : Nat → AttemptOutcome)
    (ctxDoneDuringWait : Nat → Bool) :
    Nat → Nat → Option SCError → DoResult
  | 0, attempt, lastErr => .failure attempt lastErr
  | fuel + 1, attempt, _lastErr =>
      if 0 < attempt ∧ ctxDoneDuringWait attempt = true then
        .contextCanceled attempt
      else
        match out attempt with
        | .transportFailure =>
            let e := networkTransportError
            if IsRetryable e = false ∨ attempt = mr then
              .failure (attempt + 1) (some e)
            else
              doRequestLoop mr out ctxDoneDuringWait fuel (attempt + 1) (some e)
        | .httpResponse d =>
            if 400 ≤ d.statusCode then
              let e := parseErrorResponse d
              if IsRetryable e = false ∨ attempt = mr then
                .failure (attempt + 1) (some e)
              else
                doRequestLoop mr out ctxDoneDuringWait fuel (attempt + 1) (some e)
            else
              .success (attempt + 1) d.statusCode

/-- Embedding of doRequest (src/go/screencraft.go lines 193 to 267): the loop
runs attempts 0 through mr. -/
def doRequest (mr : Nat) (out : Nat → AttemptOutcome)
    (ctxDoneDuringWait : Nat → Bool) : DoResult :=
  doRequestLoop mr out ctxDoneDuringWait (mr + 1) 0 none

/-- Embedding of calculateBackoff (src/go/screencraft.go lines 269 to 285).
Durations are rationals in seconds; r stands for the value of rand.Float64,
which lies in the interval from 0 inclusive to 1 exclusive; the Go float64
arithmetic is modelled exactly on the rationals. -/
def calculateBackoff (retryWaitMin retryWaitMax : ℚ) (attempt : Nat)
    (lastErr : Option SCError) (r : ℚ) : ℚ :=
  let retryAfter := match lastErr with | some e => GetRetryAfter e | none => 0
  if 0 < retryAfter then retryAfter
  else
    let backoff := retryWaitMin * 2 ^ (attempt - 1)
    let capped := if retryWaitMax < backoff then retryWaitMax else backoff
    capped + capped * (1 / 4) * r

/-! ## Option structures (src/go/screenshot.go types section). Field defaults
are the Go zero values of the corresponding types. -/

structure Viewport where
  width : Int := 0
  height : Int := 0
  deriving DecidableEq, Repr

structure ScrollPosition where
  x : Int := 0
  y : Int := 0
  deriving DecidableEq, Repr

structure Clip where
  x : Int := 0
  y : Int := 0
  width : Int := 0
  height : Int := 0
  deriving DecidableEq, Repr

/-- Embedding of Cookie; the Expires time pointer is kept as an optional unix
value. -/
structure Cookie where
  name : String := ""
  value : String := ""
  domain : String := ""
  path : String := ""
  secure : Bool := false
  httpOnly : Bool := false
  sameSite : String := ""
  expiresUnix : Option Int := none
  deriving DecidableEq, Repr

/-- Embedding of Header (a custom HTTP header name and value pair). -/
structure HeaderKV where
  name : String := ""
  value : String := ""
  deriving DecidableEq, Repr

structure WebhookConfig where
  url : String := ""
  headers : List (String × String) := []
  secret : String := ""
  deriving DecidableEq, Repr

/-- Embedding of ScreenshotOptions; the Format and WaitUntil string types are
kept as strings. -/
structure ScreenshotOptions where
  URL : String := ""
  Format : String := ""
  Quality : Int := 0
  FullPage : Bool := false
  Viewport : Option Viewport := none
  ScrollPosition : Option ScrollPosition := none
  Clip : Option Clip := none
  AcceptCookies : Bool := false
  Delay : Int := 0
  WaitUntil : String := ""
  WaitForSelector : String := ""
  WaitForTimeout : Int := 0
  Cookies : List Cookie := []
  Headers : List HeaderKV := []
  UserAgent : String := ""
  DeviceScaleFactor : ℚ := 0
  IsMobile : Bool := false
  HasTouch : Bool := false
  IsLandscape : Bool := false
  DarkMode : Bool := false
  BlockAds : Bool := false
  BlockTrackers : Bool := false
  BypassCSP : Bool := false
  JavaScript : Option Bool := none
  Webhook : Option WebhookConfig := none
  deriving DecidableEq, Repr

structure PDFMargin where
  top : String := ""
  right : String := ""
  bottom : String := ""
  left : String := ""
  deriving DecidableEq, Repr

/-- Embedding of PDFOptions. -/
structure PDFOptions where
  URL : String := ""
  Format : String := ""
  Orientation : String := ""
  Width : String := ""
  Height : String := ""
  Scale : ℚ := 0
  DisplayHeaderFooter : Bool := false
  HeaderTemplate : String := ""
  FooterTemplate : String := ""
  PrintBackground : Bool := false
  PreferCSSPageSize : Bool := false
  PageRanges : String := ""
  Margin : Option PDFMargin := none
  Viewport : Option Viewport := none
  AcceptCookies : Bool := false
  Delay : Int := 0
  WaitUntil : String := ""
  WaitForSelector : String := ""
  WaitForTimeout : Int := 0
  Cookies : List Cookie := []
  Headers : List HeaderKV := []
  UserAgent : String := ""
  DarkMode : Bool := false
  BlockAds : Bool := false
  BlockTrackers : Bool := false
  BypassCSP : Bool := false
  JavaScript : Option Bool := none
  Webhook : Option WebhookConfig := none
  deriving DecidableEq, Repr

/-! ## Local validation (src/go/screencraft.go lines 398 to 442) -/

/-- The local validation failures: the sentinel errors ErrMissingURL,
ErrInvalidQuality and ErrInvalidViewport of src/go/errors.go, and the scale
range failure of ValidatePDFOptions, which returns the base Error embedded in
NewValidationError (the field selector on line 432 extracts it). -/
inductive ValidationFailure where
  | missingURL
  | invalidQuality
  | invalidViewport
  | scaleOutOfRange (e : BaseError)
  deriving DecidableEq, Repr

/-- The base Error inside NewValidationError for the PDF scale check
(src/go/screencraft.go line 432 with src/go/errors.go lines 145 to 156). -/
def scaleValidationBaseError : BaseError :=
  { statusCode := 400, code := "VALIDATION_ERROR",
    message := "scale must be between 0.1 and 2.0", requestID := "", details := [] }

/-- Embedding of ValidateScreenshotOptions (src/go/screencraft.go lines 398
to 419); a none argument is the nil options pointer. -/
def ValidateScreenshotOptions (opts : Option ScreenshotOptions) :
    Option ValidationFailure :=
  match opts with
  | none => some .missingURL
  | some o =>
      if o.URL = "" then some .missingURL
      else if o.Quality < 0 ∨ 100 < o.Quality then some .invalidQuality
      else
        match o.Viewport with
        | some v =>
            if v.width < 0 ∨ v.height < 0 then some .invalidViewport else none
        | none => none

/-- Embedding of ValidatePDFOptions (src/go/screencraft.go lines 421 to
442). -/
def ValidatePDFOptions (opts : Option PDFOptions) : Option ValidationFailure :=
  match opts with
  | none => some .missingURL
  | some o =>
      if o.URL = "" then some .missingURL
      else if o.Scale ≠ 0 ∧ (o.Scale < 1 / 10 ∨ 2 < o.Scale) then
        some (.scaleOutOfRange scaleValidationBaseError)
      else
        match o.Viewport with
        | some v =>
            if v.width < 0 ∨ v.height < 0 then some .invalidViewport else none
        | none => none

/-- Whether the viewport dimensions pass the validators above. -/
def viewportNonNegative (v : Option Viewport) : Bool :=
  match v with
  | none => true
  | some v => !(decide (v.width < 0) || decide (v.height < 0))

/-! ## Request body builders (src/go/screenshot.go lines 109 to 239 and
src/go/errors.go lines 387 to 535) -/

/-- A JSON value of the request body map. Cookie and header lists are carried
as typed payloads: their own serialization is not consumed by any claim. -/
inductive JValue where
  | s (v : String)
  | i (v : Int)
  | q (v : ℚ)
  | b (v : Bool)
  | obj (kvs : List (String × JValue))
  | cookieList (v : List Cookie)
  | headerList (v : List HeaderKV)
  | strMap (v : List (String × String))

/-- One optional entry of a request map: present exactly when the guard of
the corresponding Go if statement holds. -/
def entryIf (c : Bool) (k : String) (v : JValue) : List (String × JValue) :=
  if c then [(k, v)] else []

/-- One optional entry built from an optional sub-struct (a nil-checked
pointer field in Go). -/
def entryOpt {α : Type} (o : Option α) (f : α → List (String × JValue)) :
    List (String × JValue) :=
  match o with
  | some a => f a
  | none => []

/-- The webhook sub-object shared by both builders. -/
def buildWebhookValue (w : WebhookConfig) : JValue :=
  .obj (List.flatten [[("url", JValue.s w.url)],
    entryIf (decide (0 < w.headers.length)) "headers" (JValue.strMap w.headers),
    entryIf (w.secret != "") "secret" (JValue.s w.secret)])

/-- The viewport sub-object shared by both builders: inserted only when at
least one dimension is positive. -/
def buildViewportEntry (v : Viewport) : List (String × JValue) :=
  let viewport := List.flatten [entryIf (decide (0 < v.width)) "width" (JValue.i v.width),
    entryIf (decide (0 < v.height)) "height" (JValue.i v.height)]
  if 0 < viewport.length then [("viewport", JValue.obj viewport)] else []

/-- Embedding of buildScreenshotRequest (src/go/screenshot.go lines 109 to
239), as the association list of the JSON body: a key appears exactly when
the Go code inserts it into the map. -/
def buildScreenshotRequest (opts : ScreenshotOptions) : List (String × JValue) :=
  List.flatten
    [[("url", JValue.s opts.URL)],
     entryIf (opts.Format != "") "format" (JValue.s opts.Format),
     entryIf (decide (0 < opts.Quality)) "quality" (JValue.i opts.Quality),
     entryIf opts.FullPage "fullPage" (JValue.b true),
     entryOpt opts.Viewport buildViewportEntry,
     entryOpt opts.ScrollPosition (fun sp =>
       [("scrollPosition", JValue.obj [("x", JValue.i sp.x), ("y", JValue.i sp.y)])]),
     entryOpt opts.Clip (fun c =>
       [("clip", JValue.obj [("x", JValue.i c.x), ("y", JValue.i c.y),
         ("width", JValue.i c.width), ("height", JValue.i c.height)])]),
     entryIf opts.AcceptCookies "acceptCookies" (JValue.b true),
     entryIf (decide (0 < opts.Delay)) "delay" (JValue.i opts.Delay),
     entryIf (opts.WaitUntil != "") "waitUntil" (JValue.s opts.WaitUntil),
     entryIf (opts.WaitForSelector != "") "waitForSelector" (JValue.s opts.WaitForSelector),
     entryIf (decide (0 < opts.WaitForTimeout)) "waitForTimeout" (JValue.i opts.WaitForTimeout),
     entryIf (decide (0 < opts.Cookies.length)) "cookies" (JValue.cookieList opts.Cookies),
     entryIf (decide (0 < opts.Headers.length)) "headers" (JValue.headerList opts.Headers),
     entryIf (opts.UserAgent != "") "userAgent" (JValue.s opts.UserAgent),
     entryIf (decide (0 < opts.DeviceScaleFactor)) "deviceScaleFactor" (JValue.q opts.DeviceScaleFactor),
     entryIf opts.IsMobile "isMobile" (JValue.b true),
     entryIf opts.HasTouch "hasTouch" (JValue.b true),
     entryIf opts.IsLandscape "isLandscape" (JValue.b true),
     entryIf opts.DarkMode "darkMode" (JValue.b true),
     entryIf opts.BlockAds "blockAds" (JValue.b true),
     entryIf opts.BlockTrackers "blockTrackers" (JValue.b true),
     entryIf opts.BypassCSP "bypassCSP" (JValue.b true),
     entryOpt opts.JavaScript (fun j => [("javascript", JValue.b j)]),
     entryOpt opts.Webhook (fun w => [("webhook", buildWebhookValue w)])]

/-- The margin sub-object of buildPDFRequest: inserted only when at least one
side is set. -/
def buildMarginEntry (m : PDFMargin) : List (String × JValue) :=
  let margin := List.flatten [entryIf (m.top != "") "top" (JValue.s m.top),
    entryIf (m.right != "") "right" (JValue.s m.right),
    entryIf (m.bottom != "") "bottom" (JValue.s m.bottom),
    entryIf (m.left != "") "left" (JValue.s m.left)]
  if 0 < margin.length then [("margin", JValue.obj margin)] else []

/-- Embedding of buildPDFRequest (src/go/errors.go lines 387 to 535), as the
association list of the JSON body. -/
def buildPDFRequest (opts : PDFOptions) : List (String × JValue) :=
  List.flatten
    [[("url", JValue.s opts.URL)],
     entryIf (opts.Format != "") "format" (JValue.s opts.Format),
     entryIf (opts.Orientation != "") "orientation" (JValue.s opts.Orientation),
     entryIf (opts.Width != "") "width" (JValue.s opts.Width),
     entryIf (opts.Height != "") "height" (JValue.s opts.Height),
     entryIf (opts.Scale != 0) "scale" (JValue.q opts.Scale),
     entryIf opts.DisplayHeaderFooter "displayHeaderFooter" (JValue.b true),
     entryIf (opts.HeaderTemplate != "") "headerTemplate" (JValue.s opts.HeaderTemplate),
     entryIf (opts.FooterTemplate != "") "footerTemplate" (JValue.s opts.FooterTemplate),
     entryIf opts.PrintBackground "printBackground" (JValue.b true),
     entryIf opts.PreferCSSPageSize "preferCSSPageSize" (JValue.b true),
     entryIf (opts.PageRanges != "") "pageRanges" (JValue.s opts.PageRanges),
     entryOpt opts.Margin buildMarginEntry,
     entryOpt opts.Viewport buildViewportEntry,
     entryIf opts.AcceptCookies "acceptCookies" (JValue.b true),
     entryIf (decide (0 < opts.Delay)) "delay" (JValue.i opts.Delay),
     entryIf (opts.WaitUntil != "") "waitUntil" (JValue.s opts.WaitUntil),
     entryIf (opts.WaitForSelector != "") "waitForSelector" (JValue.s opts.WaitForSelector),
     entryIf (decide (0 < opts.WaitForTimeout)) "waitForTimeout" (JValue.i opts.WaitForTimeout),
     entryIf (decide (0 < opts.Cookies.length)) "cookies" (JValue.cookieList opts.Cookies),
     entryIf (decide (0 < opts.Headers.length)) "headers" (JValue.headerList opts.Headers),
     entryIf (opts.UserAgent != "") "userAgent" (JValue.s opts.UserAgent),
     entryIf opts.DarkMode "darkMode" (JValue.b true),
     entryIf opts.BlockAds "blockAds" (JValue.b true),
     entryIf opts.BlockTrackers "blockTrackers" (JValue.b true),
     entryIf opts.BypassCSP "bypassCSP" (JValue.b true),
     entryOpt opts.JavaScript (fun j => [("javascript", JValue.b j)]),
     entryOpt opts.Webhook (fun w => [("webhook", buildWebhookValue w)])]

/-! ## Call wrappers (src/go/screenshot.go lines 34 to 107 and the PDF
counterparts) -/

/-- The base Error embedded in the NewValidationError that ScreenshotAsync
and PDFAsync return when the webhook URL is missing (src/go/screenshot.go
line 76 and the PDF counterpart; the field selector extracts the embedded
base Error). -/
def webhookRequiredError : BaseError :=
  { statusCode := 400, code := "VALIDATION_ERROR",
    message := "webhook URL is required for async operations",
    requestID := "", details := [] }

/-- The outcome of a Screenshot, ScreenshotAsync, PDF or PDFAsync call, as
far as the claims consume it: a local validation failure (before any HTTP
attempt), the webhook-required failure of the async entry points (before any
HTTP attempt), or the result of doRequest. -/
inductive CallOutcome where
  | localValidationFailure (e : ValidationFailure)
  | webhookValidationFailure (e : BaseError)
  | requestResult (r : DoResult)

/-- How many HTTP attempts a call outcome performed. -/
def CallOutcome.networkAttempts : CallOutcome → Nat
  | .localValidationFailure _ => 0
  | .webhookValidationFailure _ => 0
  | .requestResult r => r.attempts

/-- Embedding of Screenshot (src/go/screenshot.go lines 34 to 49): validate,
then perform the request. Response parsing past doRequest is not consumed by
any claim and is elided. -/
def Screenshot (opts : Option ScreenshotOptions) (mr : Nat)
    (out : Nat → AttemptOutcome) (ctxDoneDuringWait : Nat → Bool) : CallOutcome :=
  match ValidateScreenshotOptions opts with
  | some e => .localValidationFailure e
  | none => .requestResult (doRequest mr out ctxDoneDuringWait)

/-- Embedding of ScreenshotAsync (src/go/screenshot.go lines 70 to 107):
validate, then require a webhook with a non-empty URL, then perform the
request. The none arm after a passed validation is unreachable, because
ValidateScreenshotOptions rejects the nil options pointer. -/
def ScreenshotAsync (opts : Option ScreenshotOptions) (mr : Nat)
    (out : Nat → AttemptOutcome) (ctxDoneDuringWait : Nat → Bool) : CallOutcome :=
  match ValidateScreenshotOptions opts with
  | some e => .localValidationFailure e
  | none =>
      match opts with
      | none => .localValidationFailure .missingURL
      | some o =>
          match o.Webhook with
          | none => .webhookValidationFailure webhookRequiredError
          | some w =>
              if w.url = "" then .webhookValidationFailure webhookRequiredError
              else .requestResult (doRequest mr out ctxDoneDuringWait)

/-- The Go disjunction opts.Webhook == nil or opts.Webhook.URL == "" that
guards the async entry points. -/
def webhookMissing (w : Option WebhookConfig) : Bool :=
  match w with
  | none => true
  | some w => w.url == ""

/-! ## The Node SDK classifier (src/nodejs/src/errors.ts lines 122 to 156) -/

/-- The kinds of ScreenCraftError subclasses of the Node SDK. -/
inductive TSErrorKind where
  | authenticationKind
  | validationKind
  | rateLimitKind
  | captureKind
  | networkKind
  | timeoutKind
  | serverKind
  | unknownKind
  deriving DecidableEq, Repr

/-- Embedding of createErrorFromResponse (src/nodejs/src/errors.ts lines 122
to 156): the switch on the status code. -/
def createErrorFromResponse (statusCode : Int) : TSErrorKind :=
  if statusCode = 401 ∨ statusCode = 403 then .authenticationKind
  else if statusCode = 400 then .validationKind
  else if statusCode = 429 then .rateLimitKind
  else if statusCode = 408 then .timeoutKind
  else if statusCode = 500 ∨ statusCode = 502 ∨ statusCode = 503 ∨
      statusCode = 504 then .serverKind
  else if 400 ≤ statusCode ∧ statusCode < 500 then .captureKind
  else .unknownKind

/-! ## Concrete response data used by the claim theorems -/

/-- A JSON error body, as the API sends it on failures. -/
def jsonFailureBody : APIResponse :=
  { success := false, message := "capture failed", jobId := "", error := none }

/-- A response with the given status code and a valid JSON error body and no
rate limit or retry headers. -/
def jsonResponse (statusCode : Int) : HttpResponseData :=
  { statusCode := statusCode, requestID := "", retryAfterHeader := none,
    rlLimit := 0, rlRemaining := 0, rlReset := 0,
    body := some jsonFailureBody, rawBody := "" }

/-- A 500 response whose body is not valid JSON. -/
def rawBody500 : HttpResponseData :=
  { statusCode := 500, requestID := "", retryAfterHeader := none,
    rlLimit := 0, rlRemaining := 0, rlReset := 0,
    body := none, rawBody := "internal server error" }

/-- A 429 response carrying the header Retry-After: 5. -/
def rateLimited5 : HttpResponseData :=
  { statusCode := 429, requestID := "", retryAfterHeader := some 5,
    rlLimit := 100, rlRemaining := 0, rlReset := 1700000000,
    body := some jsonFailureBody, rawBody := "" }

/-- A successful 200 response. -/
def okResponse : HttpResponseData :=
  { statusCode := 200, requestID := "", retryAfterHeader := none,
    rlLimit := 0, rlRemaining := 0, rlReset := 0,
    body := none, rawBody := "" }

/-- An outcome script that answers every attempt with the same response. -/
def alwaysResponse (d : HttpResponseData) : Nat → AttemptOutcome :=
  fun _ => .httpResponse d

/-- A context that never becomes done. -/
def ctxNeverDone : Nat → Bool := fun _ => false

/-- The bare base Error that parseErrorResponse builds from a JSON failure
body with no error object (used at status 500 in the claim theorems). -/
def jsonFailureBase (statusCode : Int) : BaseError :=
  { statusCode := statusCode, code := "", message := "capture failed",
    requestID := "", details := [] }

/-! ## Helper lemmas -/

/-- The loop body performs at most one attempt per unit of fuel. -/
theorem doRequestLoop_attempts_le (mr : Nat) (out : Nat → AttemptOutcome)
    (cz : Nat → Bool) :
    ∀ (fuel attempt : Nat) (lastErr : Option SCError),
      (doRequestLoop mr out cz fuel attempt lastErr).attempts ≤ attempt + fuel := by
  intro fuel
  induction fuel with
  | zero => intro attempt lastErr; simp [doRequestLoop, DoResult.attempts]
  | succ n ih =>
      intro attempt lastErr
      rw [doRequestLoop]
      split
      · simp [DoResult.attempts]
      · split
        all_goals dsimp only
        all_goals split_ifs
        all_goals
          first
            | exact le_trans (ih _ _) (by omega)
            | (simp [DoResult.attempts]; omega)
            | simp [DoResult.attempts]

/-- Folding parseRateLimitHeaders yields none exactly when the start state is
none and no folded response has a positive header. -/
theorem foldl_parseRateLimitHeaders_eq_none (t : List RateLimitHeaders) :
    ∀ st : Option RateLimitInfo,
      (t.foldl parseRateLimitHeaders st = none ↔
        st = none ∧ ∀ h ∈ t, hasPositiveRateLimit h = false) := by
  induction t with
  | nil => intro st; simp
  | cons h t ih =>
      intro st
      rw [List.foldl_cons, ih]
      by_cases hp : 0 < h.limit ∨ 0 < h.remaining ∨ 0 < h.resetUnix
      · have hb : hasPositiveRateLimit h = true := by
          simp only [hasPositiveRateLimit, Bool.or_eq_true, decide_eq_true_eq]
          tauto
        have hstep : parseRateLimitHeaders st h =
            some { limit := h.limit, remaining := h.remaining, resetUnix := h.resetUnix } := by
          simp [parseRateLimitHeaders, hp]
        simp [hstep, hb, List.forall_mem_cons]
      · have hb : hasPositiveRateLimit h = false := by
          push_neg at hp
          simp only [hasPositiveRateLimit, Bool.or_eq_false_iff, decide_eq_false_iff_not]
          simp only [not_lt]
          tauto
        have hstep : parseRateLimitHeaders st h = st := by
          simp [parseRateLimitHeaders, hp]
        simp [hstep, hb, List.forall_mem_cons]

/-- The Go cap expression agrees with min. -/
theorem cap_eq_min (a b : ℚ) : (if a < b then a else b) = min a b := by
  by_cases hab : a < b
  · simp [hab, min_eq_left hab.le]
  · simp [hab, min_eq_right (le_of_not_lt hab)]

/-! ## Claim theorems -/

/-- C1 (code bug): the claim states that a failure is retried, attempts
remaining, exactly when its tag lies in the set of RateLimit, Timeout,
Network and Server. On the code both directions fail at the Server tag: a
500 response with a JSON body is classified as a ServerError whose
package-level IsRetryable is false, so with maxRetries = 1 the call stops
after one attempt, although the embedded base Error (status 500) declares
itself retryable; conversely a 500 response with a non-JSON body yields a
bare Error of tag Unknown that IS retried (two attempts with maxRetries =
1). -/
theorem C1_server_retry_divergence :
    tagOf (parseErrorResponse (jsonResponse 500)) = ErrorTag.serverTag
    ∧ IsRetryable (parseErrorResponse (jsonResponse 500)) = false
    ∧ (doRequest 1 (alwaysResponse (jsonResponse 500)) ctxNeverDone).attempts = 1
    ∧ BaseError.IsRetryable (jsonFailureBase 500) = true
    ∧ tagOf (parseErrorResponse rawBody500) = ErrorTag.unknownTag
    ∧ IsRetryable (parseErrorResponse rawBody500) = true
    ∧ (doRequest 1 (alwaysResponse rawBody500) ctxNeverDone).attempts = 2 := by
  decide

/-- C2 (confirmed): when the previous error carries a positive retryAfter,
the wait is exactly that duration; otherwise the wait is the capped
exponential delay min retryWaitMax (retryWaitMin times 2 to the attempt - 1)
plus a jitter between 0 and a quarter of that capped delay, the cap being
applied before the jitter. -/
theorem C2_backoff_schedule (wmin wmax : ℚ) (attempt : Nat) (e : SCError)
    (r : ℚ) (hmin : 0 ≤ wmin) (hmax : 0 ≤ wmax) (_ha : 1 ≤ attempt)
    (hr0 : 0 ≤ r) (hr1 : r < 1) :
    (0 < GetRetryAfter e →
      calculateBackoff wmin wmax attempt (some e) r = GetRetryAfter e)
    ∧ (GetRetryAfter e ≤ 0 →
        calculateBackoff wmin wmax attempt (some e) r =
          min wmax (wmin * 2 ^ (attempt - 1)) +
            min wmax (wmin * 2 ^ (attempt - 1)) * (1 / 4) * r
        ∧ 0 ≤ min wmax (wmin * 2 ^ (attempt - 1)) * (1 / 4) * r
        ∧ min wmax (wmin * 2 ^ (attempt - 1)) * (1 / 4) * r ≤
            (1 / 4) * min wmax (wmin * 2 ^ (attempt - 1))) := by
  constructor
  · intro hpos
    simp only [calculateBackoff, hpos, if_pos]
  · intro hle
    have hnot : ¬ 0 < GetRetryAfter e := not_lt.mpr hle
    have hcap : (0 : ℚ) ≤ min wmax (wmin * 2 ^ (attempt - 1)) := by
      have : (0 : ℚ) ≤ wmin * 2 ^ (attempt - 1) := by positivity
      exact le_min hmax this
    refine ⟨?_, ?_, ?_⟩
    · simp only [calculateBackoff, hnot, if_neg, not_false_iff, cap_eq_min]
    · positivity
    · have h1 : min wmax (wmin * 2 ^ (attempt - 1)) * (1 / 4) * r ≤
          min wmax (wmin * 2 ^ (attempt - 1)) * (1 / 4) * 1 := by
        apply mul_le_mul_of_nonneg_left hr1.le
        positivity
      calc min wmax (wmin * 2 ^ (attempt - 1)) * (1 / 4) * r
          ≤ min wmax (wmin * 2 ^ (attempt - 1)) * (1 / 4) * 1 := h1
        _ = (1 / 4) * min wmax (wmin * 2 ^ (attempt - 1)) := by ring

/-- C2 witness: a 429 response carrying Retry-After 5 makes the next wait
exactly 5 seconds. -/
theorem C2_backoff_schedule_witness :
    0 < GetRetryAfter (parseErrorResponse rateLimited5)
    ∧ calculateBackoff 1 30 1 (some (parseErrorResponse rateLimited5)) (1 / 2) =
        GetRetryAfter (parseErrorResponse rateLimited5) := by
  refine ⟨by norm_num [GetRetryAfter, parseErrorResponse, rateLimited5], ?_⟩
  exact (C2_backoff_schedule 1 30 1 (parseErrorResponse rateLimited5) (1 / 2)
    (by norm_num) (by norm_num) le_rfl (by norm_num) (by norm_num)).1
    (by norm_num [GetRetryAfter, parseErrorResponse, rateLimited5])

/-- C3 (confirmed): the loop of doRequest performs at most maxRetries + 1
attempts for every script of outcomes, and with maxRetries = 0 a 500
response fails after exactly one attempt with a ServerError. -/
theorem C3_attempt_bound :
    (∀ (mr : Nat) (out : Nat → AttemptOutcome) (cz : Nat → Bool),
        (doRequest mr out cz).attempts ≤ mr + 1)
    ∧ doRequest 0 (alwaysResponse (jsonResponse 500)) ctxNeverDone =
        DoResult.failure 1 (some (SCError.server (jsonFailureBase 500))) := by
  constructor
  · intro mr out cz
    have := doRequestLoop_attempts_le mr out cz (mr + 1) 0 none
    simpa [doRequest] using this
  · decide

/-- C4 counterexample: an HTTP 408 response with a JSON body is classified
by the Go SDK as the bare base Error, whose tag is not Timeout, and the
classified error is not retryable. -/
theorem C4_counterexample :
    decide (tagOf (parseErrorResponse (jsonResponse 408)) = ErrorTag.timeoutTag) = false
    ∧ IsRetryable (parseErrorResponse (jsonResponse 408)) = false := by
  decide

/-- C4 (corrected): the Node classifier maps 408 to a TimeoutError, but the
Go SDK classifies a 408 response as the bare base Error of tag Unknown,
which is not retryable, so the Go call terminates on that attempt
regardless of maxRetries. -/
theorem C4_timeout_classification :
    createErrorFromResponse 408 = TSErrorKind.timeoutKind
    ∧ tagOf (parseErrorResponse (jsonResponse 408)) = ErrorTag.unknownTag
    ∧ IsRetryable (parseErrorResponse (jsonResponse 408)) = false
    ∧ ∀ mr : Nat, doRequest mr (alwaysResponse (jsonResponse 408)) ctxNeverDone =
        DoResult.failure 1 (some (parseErrorResponse (jsonResponse 408))) := by
  refine ⟨by decide, by decide, by decide, ?_⟩
  intro mr
  rfl

/-- C5 counterexample: a malformed but non-empty URL string passes
ValidateScreenshotOptions, and the call proceeds to perform an HTTP attempt
rather than failing locally with a Validation error. -/
theorem C5_counterexample :
    ValidateScreenshotOptions (some { URL := "not a url" }) = none
    ∧ (Screenshot (some { URL := "not a url" }) 0 (alwaysResponse okResponse)
        ctxNeverDone).networkAttempts = 1 := by
  decide

/-- C5 (corrected): a request with an empty target URL fails locally with
ErrMissingURL before any HTTP attempt, and an async request whose webhook is
missing or has an empty URL fails locally with zero HTTP attempts; the Go
client performs no URL parsing, so a malformed non-empty URL is not rejected
locally. -/
theorem C5_local_validation (o : ScreenshotOptions) (mr : Nat)
    (out : Nat → AttemptOutcome) (cz : Nat → Bool) :
    (o.URL = "" →
      Screenshot (some o) mr out cz =
        CallOutcome.localValidationFailure ValidationFailure.missingURL
      ∧ (Screenshot (some o) mr out cz).networkAttempts = 0)
    ∧ (webhookMissing o.Webhook = true →
        (ScreenshotAsync (some o) mr out cz).networkAttempts = 0)
    ∧ (ValidateScreenshotOptions (some o) = none → o.Webhook = none →
        ScreenshotAsync (some o) mr out cz =
          CallOutcome.webhookValidationFailure webhookRequiredError) := by
  refine ⟨?_, ?_, ?_⟩
  · intro hurl
    have hv : ValidateScreenshotOptions (some o) = some .missingURL := by
      simp [ValidateScreenshotOptions, hurl]
    constructor
    · simp [Screenshot, hv]
    · simp [Screenshot, hv, CallOutcome.networkAttempts]
  · intro hw
    unfold ScreenshotAsync
    cases hv : ValidateScreenshotOptions (some o) with
    | some e => simp [CallOutcome.networkAttempts]
    | none =>
        cases hwh : o.Webhook with
        | none => simp [hwh, CallOutcome.networkAttempts]
        | some w =>
            have hurl : w.url = "" := by
              simpa [webhookMissing, hwh] using hw
            simp [hwh, hurl, CallOutcome.networkAttempts]
  · intro hv hwh
    simp [ScreenshotAsync, hv, hwh]

/-- C5 witness: the empty URL fails locally with ErrMissingURL and zero
attempts, at a concrete configuration. -/
theorem C5_local_validation_witness :
    Screenshot (some { URL := "" }) 3 (alwaysResponse okResponse) ctxNeverDone =
      CallOutcome.localValidationFailure ValidationFailure.missingURL :=
  ((C5_local_validation { URL := "" } 3 (alwaysResponse okResponse)
    ctxNeverDone).1 rfl).1

/-- C6 counterexample: an HTTP 403 response with a JSON body is classified
by the Go SDK as the bare base Error, not as an AuthenticationError. -/
theorem C6_counterexample :
    decide (tagOf (parseErrorResponse (jsonResponse 403)) = ErrorTag.authenticationTag)
      = false := by
  decide

/-- C6 (corrected): a 401 response yields an Authentication-tagged error in
the Go SDK and both 401 and 403 do in the Node classifier, but a 403 in the
Go SDK yields the bare base Error of tag Unknown; in every such case the
error is not retryable and the call terminates on the attempt that received
it, for every maxRetries. -/
theorem C6_authentication_classification :
    tagOf (parseErrorResponse (jsonResponse 401)) = ErrorTag.authenticationTag
    ∧ createErrorFromResponse 401 = TSErrorKind.authenticationKind
    ∧ createErrorFromResponse 403 = TSErrorKind.authenticationKind
    ∧ tagOf (parseErrorResponse (jsonResponse 403)) = ErrorTag.unknownTag
    ∧ IsRetryable (parseErrorResponse (jsonResponse 401)) = false
    ∧ IsRetryable (parseErrorResponse (jsonResponse 403)) = false
    ∧ (∀ mr : Nat, doRequest mr (alwaysResponse (jsonResponse 401)) ctxNeverDone =
        DoResult.failure 1 (some (parseErrorResponse (jsonResponse 401))))
    ∧ (∀ mr : Nat, doRequest mr (alwaysResponse (jsonResponse 403)) ctxNeverDone =
        DoResult.failure 1 (some (parseErrorResponse (jsonResponse 403)))) := by
  refine ⟨by decide, by decide, by decide, by decide, by decide, by decide,
    fun mr => rfl, fun mr => rfl⟩

/-- C7 (confirmed): a capture request with only the URL set serializes to a
body whose only key is url, for both the screenshot and the PDF builder, so
a decoder recovers a request carrying the URL and nothing else. -/
theorem C7_only_url_request (url : String) :
    (buildScreenshotRequest { URL := url }).map Prod.fst = ["url"]
    ∧ (buildScreenshotRequest { URL := url }).lookup "url" = some (JValue.s url)
    ∧ (buildPDFRequest { URL := url }).map Prod.fst = ["url"]
    ∧ (buildPDFRequest { URL := url }).lookup "url" = some (JValue.s url) :=
  ⟨rfl, rfl, rfl, rfl⟩

/-- C8 (confirmed): when the context becomes done during the wait before the
first retry, the call returns the context cancellation outcome at once and
performs no second attempt: after a retryable transport failure on attempt
0, a context done at wait 1 ends the call with one attempt made. -/
theorem C8_cancellation_mid_wait (mr : Nat) (h : 1 ≤ mr) :
    doRequest mr (fun _ => AttemptOutcome.transportFailure) (fun k => k == 1) =
      DoResult.contextCanceled 1
    ∧ (doRequest mr (fun _ => AttemptOutcome.transportFailure)
        (fun k => k == 1)).attempts = 1 := by
  obtain ⟨k, rfl⟩ : ∃ k, mr = k + 1 := ⟨mr - 1, (Nat.succ_pred_eq_of_pos h).symm⟩
  exact ⟨rfl, rfl⟩

/-- C8 witness at maxRetries 2. -/
theorem C8_cancellation_mid_wait_witness :
    doRequest 2 (fun _ => AttemptOutcome.transportFailure) (fun k => k == 1) =
      DoResult.contextCanceled 1 :=
  (C8_cancellation_mid_wait 2 (by norm_num)).1

/-- C9 counterexample: a quality of 150 fails local validation although the
URL is present, so local validation checks more than the two required
fields. -/
theorem C9_counterexample :
    ValidateScreenshotOptions (some { URL := "https://example.com", Quality := 150 }) =
      some ValidationFailure.invalidQuality := by
  decide

/-- C9 (corrected): local validation checks URL presence and additionally
quality in 0 to 100 and nonnegative viewport dimensions for screenshots, and
scale in the range 0.1 to 2 (when nonzero) and nonnegative viewport
dimensions for PDFs; these characterizations are exact, so no further option
is validated locally. -/
theorem C9_validation_scope (o : ScreenshotOptions) (p : PDFOptions) :
    (ValidateScreenshotOptions (some o) = none ↔
      ¬ o.URL = "" ∧ ¬ (o.Quality < 0 ∨ 100 < o.Quality) ∧
        ∀ v, o.Viewport = some v → ¬ (v.width < 0 ∨ v.height < 0))
    ∧ (ValidatePDFOptions (some p) = none ↔
      ¬ p.URL = "" ∧ ¬ (p.Scale ≠ 0 ∧ (p.Scale < 1 / 10 ∨ 2 < p.Scale)) ∧
        ∀ v, p.Viewport = some v → ¬ (v.width < 0 ∨ v.height < 0)) := by
  constructor
  · by_cases h1 : o.URL = ""
    · apply iff_of_false
      · simp [ValidateScreenshotOptions, h1]
      · rintro ⟨hc, -, -⟩
        exact hc h1
    · by_cases h2 : o.Quality < 0 ∨ 100 < o.Quality
      · apply iff_of_false
        · simp only [ValidateScreenshotOptions, h1, h2]
          simp
        · rintro ⟨-, hc, -⟩
          exact hc h2
      · cases hv : o.Viewport with
        | none =>
            apply iff_of_true
            · simp only [ValidateScreenshotOptions, hv, h1, h2]
              simp
            · exact ⟨h1, h2, fun v hv' => Option.noConfusion hv'⟩
        | some v =>
            by_cases h3 : v.width < 0 ∨ v.height < 0
            · apply iff_of_false
              · simp only [ValidateScreenshotOptions, hv, h1, h2, h3]
                simp
              · rintro ⟨-, -, hall⟩
                exact hall v rfl h3
            · apply iff_of_true
              · simp only [ValidateScreenshotOptions, hv, h1, h2, h3]
                simp
              · refine ⟨h1, h2, fun v' hv' => ?_⟩
                rw [Option.some.injEq] at hv'
                subst hv'
                exact h3
  · by_cases h1 : p.URL = ""
    · apply iff_of_false
      · simp [ValidatePDFOptions, h1]
      · rintro ⟨hc, -, -⟩
        exact hc h1
    · by_cases h2 : p.Scale ≠ 0 ∧ (p.Scale < 1 / 10 ∨ 2 < p.Scale)
      · apply iff_of_false
        · simp only [ValidatePDFOptions, h1, h2]
          simp [h2.1]
        · rintro ⟨-, hc, -⟩
          exact hc h2
      · cases hv : p.Viewport with
        | none =>
            apply iff_of_true
            · simp only [ValidatePDFOptions, hv, h1, h2]
              simp
            · exact ⟨h1, h2, fun v hv' => Option.noConfusion hv'⟩
        | some v =>
            by_cases h3 : v.width < 0 ∨ v.height < 0
            · apply iff_of_false
              · simp only [ValidatePDFOptions, hv, h1, h2, h3]
                simp
              · rintro ⟨-, -, hall⟩
                exact hall v rfl h3
            · apply iff_of_true
              · simp only [ValidatePDFOptions, hv, h1, h2, h3]
                simp
              · refine ⟨h1, h2, fun v' hv' => ?_⟩
                rw [Option.some.injEq] at hv'
                subst hv'
                exact h3

/-- C10 (confirmed): the rate limit accessor yields no data exactly as long
as no observed response carried a positive rate limit header, and a response
with no positive header never overwrites the stored snapshot. -/
theorem C10_rate_limit_snapshot :
    (∀ history : List RateLimitHeaders,
        (GetRateLimitInfo (lastRateLimitAfter history) = none ↔
          ∀ h ∈ history, hasPositiveRateLimit h = false))
    ∧ ∀ (st : Option RateLimitInfo) (h : RateLimitHeaders),
        hasPositiveRateLimit h = false → parseRateLimitHeaders st h = st := by
  constructor
  · intro history
    have := foldl_parseRateLimitHeaders_eq_none history none
    simpa [GetRateLimitInfo, lastRateLimitAfter] using this
  · intro st h hb
    have hp : ¬ (0 < h.limit ∨ 0 < h.remaining ∨ 0 < h.resetUnix) := by
      intro hc
      have : hasPositiveRateLimit h = true := by
        simp [hasPositiveRateLimit, decide_eq_true_eq]
        tauto
      rw [this] at hb
      exact Bool.noConfusion hb
    simp [parseRateLimitHeaders, hp]

end ScreenCraft
